import Mathlib

/-!
Shallow embedding of the Battleship variant rule engine
(`src/lib/battleship-engine.ts`, class `BattleshipEngine`).

Grid is 10x10, each player owns one 3-cell boat.  The engine state is the
`GameState` record; the two mutating operations `fire` and `move` are embedded
as pure functions `GameState → ... → Result × GameState` that return the result
value together with the successor state (the TypeScript methods mutate
`this.state` in place and return the result).

JavaScript `number` coordinates are embedded as `Int` (move candidates can go
negative).  The boat's `hits` field is a JS `Set` of cell-index string keys
`"0"`/`"1"`/`"2"`; since `cellIndexKey` is injective on indices, it is embedded
as `Finset Nat`.  A player's `shotsHistory` is a JS `Map` keyed by the string
`"row,col"`; `positionKey` is injective on positions, so it is embedded as an
association list `List (Position × ShotResult)` in insertion order (a key is
only ever inserted when absent, matching `Map.set` after a `has` check).
`Math.random()`-driven spawning is embedded by passing the random draws
explicitly: a draw `Math.floor(Math.random() * (n + 1))` has exactly the range
`0..n`, embedded as `x % (n + 1)` for an arbitrary `x : Nat`.

The four failure messages of `fire` and the four of `move` are embedded
verbatim.  Success messages and `winReason` texts interpolate game data in the
source (coordinates, hit counts, player names); they are abbreviated to fixed
strings here — no property below depends on their wording, only on failure
messages and on `winReason` being non-null.
-/

namespace Battleship

/-- `type Position = { row: number; col: number }`. -/
structure Position where
  row : Int
  col : Int
deriving DecidableEq, Repr

/-- `type Orientation = 'horizontal' | 'vertical'`. -/
inductive Orient where
  | horizontal
  | vertical
deriving DecidableEq, Repr

/-- `type Player = 'player1' | 'player2'`. -/
inductive Player where
  | player1
  | player2
deriving DecidableEq, Repr

/-- Outcome value stored in `shotsHistory`: `'hit' | 'miss'`. -/
inductive ShotResult where
  | hit
  | miss
deriving DecidableEq, Repr

/-- `interface Boat`: anchor position, orientation, and the set of
struck cell indices (`hits: Set<string>` keyed by `cellIndexKey`). -/
structure Boat where
  position : Position
  orientation : Orient
  hits : Finset Nat
deriving DecidableEq

/-- `interface PlayerState`: the player's boat plus `shotsHistory`
(`Map<string, 'hit' | 'miss'>` keyed by `positionKey`, kept in
insertion order). -/
structure PlayerState where
  boat : Boat
  shotsHistory : List (Position × ShotResult)
deriving DecidableEq

/-- `interface GameState` (the `players` object is flattened into the two
fields `player1` and `player2`). -/
structure GameState where
  gridSize : Int
  player1 : PlayerState
  player2 : PlayerState
  currentTurn : Player
  isGameOver : Bool
  winner : Option Player
  winReason : Option String
  turnNumber : Nat
deriving DecidableEq

/-- `interface MoveResult` (`collision?: boolean`; an absent field is
embedded as `false`). -/
structure MoveResult where
  success : Bool
  message : String
  collision : Bool := false
deriving DecidableEq, Repr

/-- `interface FireResult` (`sunk?: boolean`; an absent field is embedded
as `false`). -/
structure FireResult where
  success : Bool
  hit : Bool
  message : String
  sunk : Bool := false
deriving DecidableEq, Repr

/-- `const GRID_SIZE = 10`. -/
def GRID_SIZE : Int := 10

/-- `const BOAT_LENGTH = 3`. -/
def BOAT_LENGTH : Nat := 3

/-- `const MIN_SPAWN_DISTANCE = 4`. -/
def MIN_SPAWN_DISTANCE : Nat := 4

/-- The opponent of a player: `player === 'player1' ? 'player2' : 'player1'`. -/
def Player.other : Player → Player
  | .player1 => .player2
  | .player2 => .player1

/-- `this.state.players[player]`. -/
def GameState.getPlayer (s : GameState) : Player → PlayerState
  | .player1 => s.player1
  | .player2 => s.player2

/-- Functional update of `this.state.players[player]`. -/
def GameState.setPlayer (s : GameState) : Player → PlayerState → GameState
  | .player1, ps => { s with player1 := ps }
  | .player2, ps => { s with player2 := ps }

/-- `BattleshipEngine.getBoatCells`: the `BOAT_LENGTH` cells occupied by a
boat, extending from the anchor along `col` (horizontal) or `row`
(vertical). -/
def getBoatCells (boat : Boat) : List Position :=
  (List.range BOAT_LENGTH).map fun i =>
    match boat.orientation with
    | .horizontal => { row := boat.position.row, col := boat.position.col + (i : Int) }
    | .vertical => { row := boat.position.row + (i : Int), col := boat.position.col }

/-- `playerState.shotsHistory.has(positionKey(target))` (the key map
`positionKey` is injective, so membership by position is the same test). -/
def hasShot (history : List (Position × ShotResult)) (target : Position) : Bool :=
  history.any fun e => decide (e.1 = target)

/-- `BattleshipEngine.boatsTooClose`: some pair of occupied cells of the two
boats has Manhattan distance below `MIN_SPAWN_DISTANCE`. -/
def boatsTooClose (boat1 boat2 : Boat) : Bool :=
  (getBoatCells boat1).any fun c1 =>
    (getBoatCells boat2).any fun c2 =>
      decide ((c1.row - c2.row).natAbs + (c1.col - c2.col).natAbs < MIN_SPAWN_DISTANCE)

/-- One triple of random draws consumed by `generateRandomBoat`:
the orientation coin (`Math.random() < 0.5`) and the two anchor draws. -/
structure RandDraw where
  orientCoin : Bool
  rowDraw : Nat
  colDraw : Nat

/-- `BattleshipEngine.generateRandomBoat`, with the random draws passed in.
`Math.floor(Math.random() * (max + 1))` ranges over `0..max` and is embedded
as `draw % (max + 1)`. -/
def generateRandomBoat (d : RandDraw) : Boat :=
  let orientation : Orient := if d.orientCoin then .horizontal else .vertical
  let maxRow : Int := if orientation = .horizontal then GRID_SIZE - 1 else GRID_SIZE - (BOAT_LENGTH : Int)
  let maxCol : Int := if orientation = .horizontal then GRID_SIZE - (BOAT_LENGTH : Int) else GRID_SIZE - 1
  { position :=
      { row := ((d.rowDraw % (maxRow + 1).toNat : Nat) : Int),
        col := ((d.colDraw % (maxCol + 1).toNat : Nat) : Int) },
    orientation := orientation,
    hits := ∅ }

/-- The spawn-separation retry loop of `initializeGame`:
`while (boatsTooClose(player1Boat, player2Boat) && attempts < 100) { ... }`,
with `fuel = 100 - attempts`.  `draws n` is the draw triple consumed by the
`n`-th regeneration. -/
def spawnLoop (player1Boat : Boat) (draws : Nat → RandDraw) :
    Nat → Nat → Boat → Boat
  | _, 0, player2Boat => player2Boat
  | attempts, fuel + 1, player2Boat =>
    if boatsTooClose player1Boat player2Boat then
      spawnLoop player1Boat draws (attempts + 1) fuel (generateRandomBoat (draws attempts))
    else
      player2Boat

/-- `BattleshipEngine.initializeGame`, with the random draws passed in:
`d1` feeds player1's boat, `d2` the first candidate for player2's boat, and
`draws` the (up to 100) regenerations of the retry loop. -/
def initializeGame (d1 d2 : RandDraw) (draws : Nat → RandDraw) : GameState :=
  let player1Boat := generateRandomBoat d1
  let player2Boat := spawnLoop player1Boat draws 0 100 (generateRandomBoat d2)
  { gridSize := GRID_SIZE,
    player1 := { boat := player1Boat, shotsHistory := [] },
    player2 := { boat := player2Boat, shotsHistory := [] },
    currentTurn := .player1,
    isGameOver := false,
    winner := none,
    winReason := none,
    turnNumber := 1 }

/-- `BattleshipEngine.switchTurn`: flip `currentTurn`; increment `turnNumber`
when the new turn is `player1`. -/
def switchTurn (s : GameState) : GameState :=
  let next := s.currentTurn.other
  { s with
      currentTurn := next,
      turnNumber := if next = Player.player1 then s.turnNumber + 1 else s.turnNumber }

/-- `BattleshipEngine.fire`.  Returns the `FireResult` together with the
successor state (the method mutates `this.state`). -/
def fire (s : GameState) (player : Player) (target : Position) :
    FireResult × GameState :=
  if s.isGameOver then
    ({ success := false, hit := false, message := "Game is already over" }, s)
  else if s.currentTurn ≠ player then
    ({ success := false, hit := false, message := "Not your turn" }, s)
  else if target.row < 0 ∨ GRID_SIZE ≤ target.row ∨ target.col < 0 ∨ GRID_SIZE ≤ target.col then
    ({ success := false, hit := false, message := "Invalid target position" }, s)
  else if hasShot (s.getPlayer player).shotsHistory target then
    ({ success := false, hit := false, message := "Already fired at this position" }, s)
  else
    let opponent := player.other
    let opponentBoat := (s.getPlayer opponent).boat
    let opponentCells := getBoatCells opponentBoat
    match opponentCells.findIdx? (fun c => decide (c = target)) with
    | some hitCellIndex =>
      let s1 := s.setPlayer player
        { s.getPlayer player with
            shotsHistory := (s.getPlayer player).shotsHistory ++ [(target, ShotResult.hit)] }
      let newHits := insert hitCellIndex opponentBoat.hits
      let s2 := s1.setPlayer opponent
        { s1.getPlayer opponent with boat := { opponentBoat with hits := newHits } }
      if BOAT_LENGTH ≤ newHits.card then
        ({ success := true, hit := true, message := "HIT! You sunk the enemy boat!", sunk := true },
         { s2 with
             isGameOver := true,
             winner := some player,
             winReason := some "sunk the opposing boat" })
      else
        ({ success := true, hit := true,
           message := "HIT! Enemy boat has " ++ toString newHits.card ++ "/3 hits." },
         switchTurn s2)
    | none =>
      let s1 := s.setPlayer player
        { s.getPlayer player with
            shotsHistory := (s.getPlayer player).shotsHistory ++ [(target, ShotResult.miss)] }
      ({ success := true, hit := false, message := "MISS." }, switchTurn s1)

/-- Move directions. -/
inductive Direction where
  | up
  | down
  | left
  | right
deriving DecidableEq, Repr

/-- The `switch (direction)` block of `BattleshipEngine.move`: offset the
anchor by `spaces` cells along the direction. -/
def movedPosition (pos : Position) (direction : Direction) (spaces : Int) : Position :=
  match direction with
  | .up => { pos with row := pos.row - spaces }
  | .down => { pos with row := pos.row + spaces }
  | .left => { pos with col := pos.col - spaces }
  | .right => { pos with col := pos.col + spaces }

/-- `BattleshipEngine.move`.  Returns the `MoveResult` together with the
successor state. -/
def move (s : GameState) (player : Player) (direction : Direction) (spaces : Int) :
    MoveResult × GameState :=
  if s.isGameOver then
    ({ success := false, message := "Game is already over" }, s)
  else if s.currentTurn ≠ player then
    ({ success := false, message := "Not your turn" }, s)
  else if spaces < 1 ∨ 2 < spaces then
    ({ success := false, message := "Can only move 1 or 2 spaces" }, s)
  else
    let boat := (s.getPlayer player).boat
    let newPosition : Position := movedPosition boat.position direction spaces
    let newBoat : Boat := { boat with position := newPosition }
    let newCells := getBoatCells newBoat
    if newCells.any fun c =>
        decide (c.row < 0 ∨ GRID_SIZE ≤ c.row ∨ c.col < 0 ∨ GRID_SIZE ≤ c.col) then
      ({ success := false, message := "Move would go out of bounds" }, s)
    else
      let opponent := player.other
      let opponentCells := getBoatCells (s.getPlayer opponent).boat
      if newCells.any fun c => opponentCells.any fun o => decide (o = c) then
        ({ success := true, message := "You collided with the enemy boat! You lose!",
           collision := true },
         { s with
             isGameOver := true,
             winner := some opponent,
             winReason := some "collided with the opposing boat" })
      else
        ({ success := true, message := "Moved." },
         switchTurn (s.setPlayer player { s.getPlayer player with boat := newBoat }))

/-- The record returned by `BattleshipEngine.getPlayerView`. -/
structure PlayerView where
  gridSize : Int
  myBoatCells : List Position
  myBoatHits : Nat
  myShotsHistory : List (Position × ShotResult)
  currentTurn : Player
  isGameOver : Bool
  winner : Option Player
  winReason : Option String
  turnNumber : Nat
deriving DecidableEq

/-- `BattleshipEngine.getPlayerView`: the player's own boat cells and hit
count, the player's own shot history (each key decoded back to its position),
and the shared public fields. -/
def getPlayerView (s : GameState) (player : Player) : PlayerView :=
  let playerState := s.getPlayer player
  { gridSize := s.gridSize,
    myBoatCells := getBoatCells playerState.boat,
    myBoatHits := playerState.boat.hits.card,
    myShotsHistory := playerState.shotsHistory,
    currentTurn := s.currentTurn,
    isGameOver := s.isGameOver,
    winner := s.winner,
    winReason := s.winReason,
    turnNumber := s.turnNumber }

/-- The two boats of a state occupy disjoint cell sets (the at-rest
no-overlap property). -/
def boatCellsDisjoint (s : GameState) : Prop :=
  ∀ c ∈ getBoatCells s.player1.boat, c ∉ getBoatCells s.player2.boat

instance (s : GameState) : Decidable (boatCellsDisjoint s) := by
  unfold boatCellsDisjoint
  infer_instance

/-! ## Helper lemmas -/

theorem getPlayer_setPlayer_self (s : GameState) (p : Player) (ps : PlayerState) :
    (s.setPlayer p ps).getPlayer p = ps := by
  cases p <;> rfl

theorem getPlayer_setPlayer_other (s : GameState) (p q : Player) (ps : PlayerState)
    (h : q ≠ p) : (s.setPlayer p ps).getPlayer q = s.getPlayer q := by
  cases p <;> cases q <;> first | rfl | exact absurd rfl h

theorem Player.other_ne (p : Player) : p.other ≠ p := by
  cases p <;> simp [Player.other]

@[simp] theorem setPlayer_currentTurn (s : GameState) (p : Player) (ps : PlayerState) :
    (s.setPlayer p ps).currentTurn = s.currentTurn := by
  cases p <;> rfl

@[simp] theorem setPlayer_turnNumber (s : GameState) (p : Player) (ps : PlayerState) :
    (s.setPlayer p ps).turnNumber = s.turnNumber := by
  cases p <;> rfl

@[simp] theorem setPlayer_isGameOver (s : GameState) (p : Player) (ps : PlayerState) :
    (s.setPlayer p ps).isGameOver = s.isGameOver := by
  cases p <;> rfl

@[simp] theorem setPlayer_winner (s : GameState) (p : Player) (ps : PlayerState) :
    (s.setPlayer p ps).winner = s.winner := by
  cases p <;> rfl

@[simp] theorem setPlayer_winReason (s : GameState) (p : Player) (ps : PlayerState) :
    (s.setPlayer p ps).winReason = s.winReason := by
  cases p <;> rfl

theorem mem_findIdx?_some {l : List Position} {t : Position} (h : t ∈ l) :
    ∃ i, l.findIdx? (fun c => decide (c = t)) = some i := by
  rw [← Option.isSome_iff_exists, List.findIdx?_isSome, List.any_eq_true]
  exact ⟨t, h, by simp⟩

theorem findIdx?_none_of_not_mem {l : List Position} {t : Position} (h : t ∉ l) :
    l.findIdx? (fun c => decide (c = t)) = none := by
  rw [List.findIdx?_eq_none_iff]
  intro x hx
  simp only [decide_eq_false_iff_not]
  rintro rfl
  exact h hx

/-! ## Claim theorems -/

/-- C1: when `fire` passes all preconditions and the target coincides with a
cell of the opponent's boat, the hit cell's index is added to the opponent
boat's hit set; and whenever the resulting hit set has at least
`BOAT_LENGTH = 3` elements, the call sets `isGameOver`, makes the acting
player the winner with a non-null `winReason`, returns
`success = hit = sunk = true`, and leaves `currentTurn` and `turnNumber`
untouched. -/
theorem fire_hit_adds_index_and_sinks (s : GameState) (p : Player) (t : Position)
    (h1 : s.isGameOver = false) (h2 : s.currentTurn = p)
    (h3 : ¬(t.row < 0 ∨ GRID_SIZE ≤ t.row ∨ t.col < 0 ∨ GRID_SIZE ≤ t.col))
    (h4 : hasShot (s.getPlayer p).shotsHistory t = false)
    (h5 : t ∈ getBoatCells (s.getPlayer p.other).boat) :
    ∃ i, (getBoatCells (s.getPlayer p.other).boat).findIdx? (fun c => decide (c = t)) = some i ∧
      ((fire s p t).2.getPlayer p.other).boat.hits
        = insert i ((s.getPlayer p.other).boat.hits) ∧
      (fire s p t).1.success = true ∧ (fire s p t).1.hit = true ∧
      (BOAT_LENGTH ≤ (insert i ((s.getPlayer p.other).boat.hits)).card →
        (fire s p t).1.sunk = true ∧
        (fire s p t).2.isGameOver = true ∧
        (fire s p t).2.winner = some p ∧
        (fire s p t).2.winReason ≠ none ∧
        (fire s p t).2.currentTurn = s.currentTurn ∧
        (fire s p t).2.turnNumber = s.turnNumber) := by
  obtain ⟨i, hfind⟩ := mem_findIdx?_some h5
  refine ⟨i, hfind, ?_⟩
  cases p <;>
    simp only [fire, h1, h2, h4, hfind, Player.other, GameState.getPlayer, GameState.setPlayer,
      Bool.false_eq_true, if_false, ne_eq, not_true_eq_false, if_neg h3, reduceIte] at *
  all_goals
    split <;> rename_i hcard <;> simp_all [switchTurn, Player.other, BOAT_LENGTH]

/-- A concrete state witnessing the sink behaviour: player1 to act, player2's
boat at `(0,0)` horizontal with cell indices `0` and `1` already struck. -/
def sinkExample : GameState :=
  { gridSize := GRID_SIZE,
    player1 := { boat := { position := { row := 5, col := 5 }, orientation := .vertical, hits := ∅ },
                 shotsHistory := [] },
    player2 := { boat := { position := { row := 0, col := 0 }, orientation := .horizontal, hits := {0, 1} },
                 shotsHistory := [] },
    currentTurn := .player1,
    isGameOver := false,
    winner := none,
    winReason := none,
    turnNumber := 1 }

/-- Witness for C1 at the concrete state `sinkExample`, firing at `(0,2)`. -/
theorem fire_hit_adds_index_and_sinks_witness :
    sinkExample.isGameOver = false ∧
    sinkExample.currentTurn = Player.player1 ∧
    ¬((Position.mk 0 2).row < 0 ∨ GRID_SIZE ≤ (Position.mk 0 2).row ∨
      (Position.mk 0 2).col < 0 ∨ GRID_SIZE ≤ (Position.mk 0 2).col) ∧
    hasShot (sinkExample.getPlayer Player.player1).shotsHistory (Position.mk 0 2) = false ∧
    Position.mk 0 2 ∈ getBoatCells (sinkExample.getPlayer (Player.player1).other).boat ∧
    (∃ i, (getBoatCells (sinkExample.getPlayer (Player.player1).other).boat).findIdx?
            (fun c => decide (c = Position.mk 0 2)) = some i ∧
      ((fire sinkExample Player.player1 (Position.mk 0 2)).2.getPlayer (Player.player1).other).boat.hits
        = insert i ((sinkExample.getPlayer (Player.player1).other).boat.hits) ∧
      (fire sinkExample Player.player1 (Position.mk 0 2)).1.success = true ∧
      (fire sinkExample Player.player1 (Position.mk 0 2)).1.hit = true ∧
      (BOAT_LENGTH ≤ (insert i ((sinkExample.getPlayer (Player.player1).other).boat.hits)).card →
        (fire sinkExample Player.player1 (Position.mk 0 2)).1.sunk = true ∧
        (fire sinkExample Player.player1 (Position.mk 0 2)).2.isGameOver = true ∧
        (fire sinkExample Player.player1 (Position.mk 0 2)).2.winner = some Player.player1 ∧
        (fire sinkExample Player.player1 (Position.mk 0 2)).2.winReason ≠ none ∧
        (fire sinkExample Player.player1 (Position.mk 0 2)).2.currentTurn = sinkExample.currentTurn ∧
        (fire sinkExample Player.player1 (Position.mk 0 2)).2.turnNumber = sinkExample.turnNumber)) :=
  ⟨rfl, rfl, by decide, rfl, by decide,
    fire_hit_adds_index_and_sinks sinkExample Player.player1 (Position.mk 0 2)
      rfl rfl (by decide) rfl (by decide)⟩

/-- C6: boat cell expansion is a pure function of anchor and orientation
returning the 3 positions from the anchor along the `col` axis (horizontal)
or the `row` axis (vertical); and every boat produced by `generateRandomBoat`
(for every random draw) has all 3 cells inside `[0,10) x [0,10)`. -/
theorem getBoatCells_shape_and_spawn_in_bounds (b : Boat) (d : RandDraw) :
    (b.orientation = .horizontal →
      getBoatCells b = [b.position,
        { row := b.position.row, col := b.position.col + 1 },
        { row := b.position.row, col := b.position.col + 2 }]) ∧
    (b.orientation = .vertical →
      getBoatCells b = [b.position,
        { row := b.position.row + 1, col := b.position.col },
        { row := b.position.row + 2, col := b.position.col }]) ∧
    (∀ c ∈ getBoatCells (generateRandomBoat d),
      0 ≤ c.row ∧ c.row < GRID_SIZE ∧ 0 ≤ c.col ∧ c.col < GRID_SIZE) := by
  refine ⟨?_, ?_, ?_⟩
  · intro h
    simp [getBoatCells, h, BOAT_LENGTH, List.range_succ]
  · intro h
    simp [getBoatCells, h, BOAT_LENGTH, List.range_succ]
  · intro c hc
    cases hcoin : d.orientCoin <;>
      simp [generateRandomBoat, hcoin, getBoatCells, BOAT_LENGTH, GRID_SIZE,
        List.range_succ] at hc <;>
      rcases hc with h | h | h <;> subst h <;>
      simp only [GRID_SIZE] <;>
      refine ⟨by omega, by omega, by omega, by omega⟩

/-- Witness for C6 at a concrete boat (anchor `(3,4)`, horizontal) and a
concrete random draw (vertical, draws 12 and 34). -/
theorem getBoatCells_shape_and_spawn_in_bounds_witness :
    (Boat.mk (Position.mk 3 4) Orient.horizontal ∅).orientation = Orient.horizontal ∧
    getBoatCells (Boat.mk (Position.mk 3 4) Orient.horizontal ∅)
      = [Position.mk 3 4, Position.mk 3 5, Position.mk 3 6] ∧
    Position.mk 5 4 ∈ getBoatCells (generateRandomBoat (RandDraw.mk false 12 34)) ∧
    (0 ≤ (Position.mk (5 : Int) (4 : Int)).row ∧ (Position.mk (5 : Int) (4 : Int)).row < GRID_SIZE ∧
     0 ≤ (Position.mk (5 : Int) (4 : Int)).col ∧ (Position.mk (5 : Int) (4 : Int)).col < GRID_SIZE) :=
  ⟨rfl,
   (getBoatCells_shape_and_spawn_in_bounds
      (Boat.mk (Position.mk 3 4) Orient.horizontal ∅) (RandDraw.mk false 12 34)).1 rfl,
   by decide,
   (getBoatCells_shape_and_spawn_in_bounds
      (Boat.mk (Position.mk 3 4) Orient.horizontal ∅) (RandDraw.mk false 12 34)).2.2
      (Position.mk 5 4) (by decide)⟩

/-- C7: `getPlayerView p` is a function of `p`'s own `PlayerState` and the
shared public fields only — two states agreeing on those but differing
arbitrarily in the opponent's boat (position, orientation or hit set) yield
identical views, so opponent geometry never leaks into a player view. -/
theorem getPlayerView_noninterference (s1 s2 : GameState) (p : Player)
    (hps : s1.getPlayer p = s2.getPlayer p)
    (hg : s1.gridSize = s2.gridSize) (hc : s1.currentTurn = s2.currentTurn)
    (ho : s1.isGameOver = s2.isGameOver) (hw : s1.winner = s2.winner)
    (hr : s1.winReason = s2.winReason) (ht : s1.turnNumber = s2.turnNumber) :
    getPlayerView s1 p = getPlayerView s2 p := by
  simp [getPlayerView, hps, hg, hc, ho, hw, hr, ht]

/-- A state for the fog-of-war witness: player2's boat at `(7,2)` vertical. -/
def fogExampleA : GameState :=
  { gridSize := GRID_SIZE,
    player1 := { boat := { position := { row := 1, col := 1 }, orientation := .horizontal, hits := ∅ },
                 shotsHistory := [(Position.mk 9 9, ShotResult.miss)] },
    player2 := { boat := { position := { row := 7, col := 2 }, orientation := .vertical, hits := ∅ },
                 shotsHistory := [] },
    currentTurn := .player1,
    isGameOver := false,
    winner := none,
    winReason := none,
    turnNumber := 3 }

/-- Same as `fogExampleA` except player2's boat moved to `(4,6)` horizontal
with one cell struck. -/
def fogExampleB : GameState :=
  { fogExampleA with
    player2 := { boat := { position := { row := 4, col := 6 }, orientation := .horizontal, hits := {1} },
                 shotsHistory := [] } }

/-- Witness for C7: the two concrete states differ in the opponent boat yet
player1's views coincide. -/
theorem getPlayerView_noninterference_witness :
    fogExampleA.getPlayer Player.player1 = fogExampleB.getPlayer Player.player1 ∧
    fogExampleA.gridSize = fogExampleB.gridSize ∧
    fogExampleA.currentTurn = fogExampleB.currentTurn ∧
    fogExampleA.isGameOver = fogExampleB.isGameOver ∧
    fogExampleA.winner = fogExampleB.winner ∧
    fogExampleA.winReason = fogExampleB.winReason ∧
    fogExampleA.turnNumber = fogExampleB.turnNumber ∧
    fogExampleA.player2.boat ≠ fogExampleB.player2.boat ∧
    getPlayerView fogExampleA Player.player1 = getPlayerView fogExampleB Player.player1 :=
  ⟨rfl, rfl, rfl, rfl, rfl, rfl, rfl, by decide,
   getPlayerView_noninterference fogExampleA fogExampleB Player.player1
     rfl rfl rfl rfl rfl rfl rfl⟩

/-- C2: when `move` passes its preconditions, the candidate boat cells are all
in bounds, but some candidate cell coincides with a cell of the opponent's
current boat, the call ends the game with the opponent as winner (the mover
loses regardless of hit counts), sets a non-null `winReason`, and returns
`success = true` with `collision = true`. -/
theorem move_collision_is_fatal (s : GameState) (p : Player) (d : Direction) (n : Int)
    (h1 : s.isGameOver = false) (h2 : s.currentTurn = p)
    (h3 : ¬(n < 1 ∨ 2 < n))
    (h4 : ∀ c ∈ getBoatCells
        { (s.getPlayer p).boat with position := movedPosition (s.getPlayer p).boat.position d n },
      ¬(c.row < 0 ∨ GRID_SIZE ≤ c.row ∨ c.col < 0 ∨ GRID_SIZE ≤ c.col))
    (h5 : ∃ c ∈ getBoatCells
        { (s.getPlayer p).boat with position := movedPosition (s.getPlayer p).boat.position d n },
      c ∈ getBoatCells (s.getPlayer p.other).boat) :
    (move s p d n).1.success = true ∧
    (move s p d n).1.collision = true ∧
    (move s p d n).2.isGameOver = true ∧
    (move s p d n).2.winner = some p.other ∧
    (move s p d n).2.winReason ≠ none := by
  have hb : (getBoatCells
      { (s.getPlayer p).boat with position := movedPosition (s.getPlayer p).boat.position d n }).any
        (fun c => decide (c.row < 0 ∨ GRID_SIZE ≤ c.row ∨ c.col < 0 ∨ GRID_SIZE ≤ c.col)) = false := by
    rw [List.any_eq_false]
    intro c hc
    simpa using h4 c hc
  have hcoll : (getBoatCells
      { (s.getPlayer p).boat with position := movedPosition (s.getPlayer p).boat.position d n }).any
        (fun c => (getBoatCells (s.getPlayer p.other).boat).any (fun o => decide (o = c))) = true := by
    rw [List.any_eq_true]
    obtain ⟨c, hc1, hc2⟩ := h5
    exact ⟨c, hc1, by rw [List.any_eq_true]; exact ⟨c, hc2, by simp⟩⟩
  cases p <;>
    (simp only [move, GameState.getPlayer, GameState.setPlayer, Player.other] at hb hcoll ⊢
     split_ifs with g1 g2 g3
     · simp [h1] at g1
     · simp [h2] at g2
     · rw [hb] at g3; simp at g3
     · simp)

/-- A concrete state for the collision witnesses: player1's boat occupies
rows 2-4 of column 5, player2's boat occupies rows 5-7 of column 5, and it
is player1's turn. -/
def collisionExample : GameState :=
  { gridSize := GRID_SIZE,
    player1 := { boat := { position := { row := 2, col := 5 }, orientation := .vertical, hits := ∅ },
                 shotsHistory := [] },
    player2 := { boat := { position := { row := 5, col := 5 }, orientation := .vertical, hits := {0, 2} },
                 shotsHistory := [] },
    currentTurn := .player1,
    isGameOver := false,
    winner := none,
    winReason := none,
    turnNumber := 4 }

/-- Witness for C2: in `collisionExample`, player1 moving down 1 space lands
on `(5,5)`, a cell of player2's boat. -/
theorem move_collision_is_fatal_witness :
    collisionExample.isGameOver = false ∧
    collisionExample.currentTurn = Player.player1 ∧
    ¬((1 : Int) < 1 ∨ 2 < (1 : Int)) ∧
    (∀ c ∈ getBoatCells
        { (collisionExample.getPlayer Player.player1).boat with
            position := movedPosition (collisionExample.getPlayer Player.player1).boat.position
              Direction.down 1 },
      ¬(c.row < 0 ∨ GRID_SIZE ≤ c.row ∨ c.col < 0 ∨ GRID_SIZE ≤ c.col)) ∧
    (∃ c ∈ getBoatCells
        { (collisionExample.getPlayer Player.player1).boat with
            position := movedPosition (collisionExample.getPlayer Player.player1).boat.position
              Direction.down 1 },
      c ∈ getBoatCells (collisionExample.getPlayer (Player.player1).other).boat) ∧
    (move collisionExample Player.player1 Direction.down 1).1.success = true ∧
    (move collisionExample Player.player1 Direction.down 1).1.collision = true ∧
    (move collisionExample Player.player1 Direction.down 1).2.isGameOver = true ∧
    (move collisionExample Player.player1 Direction.down 1).2.winner = some (Player.player1).other ∧
    (move collisionExample Player.player1 Direction.down 1).2.winReason ≠ none :=
  ⟨rfl, rfl, by decide, by decide, by decide,
   move_collision_is_fatal collisionExample Player.player1 Direction.down 1
     rfl rfl (by decide) (by decide) (by decide)⟩

/-- C8: a collision move changes only `isGameOver`, `winner` and `winReason`:
both `PlayerState`s (in particular the mover's boat anchor and both hit sets
and shot histories), `currentTurn` and `turnNumber` are untouched, so the
boats' at-rest cell sets stay disjoint if they were disjoint. -/
theorem move_collision_frame (s : GameState) (p : Player) (d : Direction) (n : Int)
    (h : (move s p d n).1.collision = true) :
    (move s p d n).2.player1 = s.player1 ∧
    (move s p d n).2.player2 = s.player2 ∧
    (move s p d n).2.currentTurn = s.currentTurn ∧
    (move s p d n).2.turnNumber = s.turnNumber ∧
    (move s p d n).2.gridSize = s.gridSize ∧
    (move s p d n).2.isGameOver = true ∧
    (move s p d n).2.winner = some p.other ∧
    (move s p d n).2.winReason ≠ none ∧
    (move s p d n).1.success = true ∧
    (boatCellsDisjoint s → boatCellsDisjoint (move s p d n).2) := by
  cases p <;>
    (simp only [move, GameState.getPlayer, GameState.setPlayer, Player.other] at h ⊢
     split_ifs at h ⊢ with g1 g2 g3 g4 g5 <;>
       simp_all [boatCellsDisjoint])

/-- Witness for C8 at the same concrete collision. -/
theorem move_collision_frame_witness :
    (move collisionExample Player.player1 Direction.down 1).1.collision = true ∧
    (move collisionExample Player.player1 Direction.down 1).2.player1 = collisionExample.player1 ∧
    (move collisionExample Player.player1 Direction.down 1).2.player2 = collisionExample.player2 ∧
    (move collisionExample Player.player1 Direction.down 1).2.currentTurn = collisionExample.currentTurn ∧
    (move collisionExample Player.player1 Direction.down 1).2.turnNumber = collisionExample.turnNumber ∧
    (move collisionExample Player.player1 Direction.down 1).2.gridSize = collisionExample.gridSize ∧
    (move collisionExample Player.player1 Direction.down 1).2.isGameOver = true ∧
    (move collisionExample Player.player1 Direction.down 1).2.winner = some (Player.player1).other ∧
    (move collisionExample Player.player1 Direction.down 1).2.winReason ≠ none ∧
    (move collisionExample Player.player1 Direction.down 1).1.success = true ∧
    (boatCellsDisjoint collisionExample →
      boatCellsDisjoint (move collisionExample Player.player1 Direction.down 1).2) :=
  ⟨by decide,
   move_collision_frame collisionExample Player.player1 Direction.down 1 (by decide)⟩

/-- C3: every failing `fire` or `move` returns `success = false` with the
whole state unchanged, and the failure reported is the first violated
condition in source order — `fire`: game over, wrong turn, target out of
bounds, repeated target; `move`: game over, wrong turn, bad distance,
candidate cell out of the grid. -/
theorem failure_first_violation_and_no_mutation (s : GameState) (p : Player)
    (t : Position) (d : Direction) (n : Int) :
    (s.isGameOver = true →
      fire s p t = ({ success := false, hit := false, message := "Game is already over" }, s)) ∧
    (s.isGameOver = false → s.currentTurn ≠ p →
      fire s p t = ({ success := false, hit := false, message := "Not your turn" }, s)) ∧
    (s.isGameOver = false → s.currentTurn = p →
      (t.row < 0 ∨ GRID_SIZE ≤ t.row ∨ t.col < 0 ∨ GRID_SIZE ≤ t.col) →
      fire s p t = ({ success := false, hit := false, message := "Invalid target position" }, s)) ∧
    (s.isGameOver = false → s.currentTurn = p →
      ¬(t.row < 0 ∨ GRID_SIZE ≤ t.row ∨ t.col < 0 ∨ GRID_SIZE ≤ t.col) →
      hasShot (s.getPlayer p).shotsHistory t = true →
      fire s p t = ({ success := false, hit := false, message := "Already fired at this position" }, s)) ∧
    (s.isGameOver = false → s.currentTurn = p →
      ¬(t.row < 0 ∨ GRID_SIZE ≤ t.row ∨ t.col < 0 ∨ GRID_SIZE ≤ t.col) →
      hasShot (s.getPlayer p).shotsHistory t = false →
      (fire s p t).1.success = true) ∧
    ((fire s p t).1.success = false → (fire s p t).2 = s) ∧
    (s.isGameOver = true →
      move s p d n = ({ success := false, message := "Game is already over" }, s)) ∧
    (s.isGameOver = false → s.currentTurn ≠ p →
      move s p d n = ({ success := false, message := "Not your turn" }, s)) ∧
    (s.isGameOver = false → s.currentTurn = p → (n < 1 ∨ 2 < n) →
      move s p d n = ({ success := false, message := "Can only move 1 or 2 spaces" }, s)) ∧
    (s.isGameOver = false → s.currentTurn = p → ¬(n < 1 ∨ 2 < n) →
      (∃ c ∈ getBoatCells
          { (s.getPlayer p).boat with
              position := movedPosition (s.getPlayer p).boat.position d n },
        (c.row < 0 ∨ GRID_SIZE ≤ c.row ∨ c.col < 0 ∨ GRID_SIZE ≤ c.col)) →
      move s p d n = ({ success := false, message := "Move would go out of bounds" }, s)) ∧
    (s.isGameOver = false → s.currentTurn = p → ¬(n < 1 ∨ 2 < n) →
      (∀ c ∈ getBoatCells
          { (s.getPlayer p).boat with
              position := movedPosition (s.getPlayer p).boat.position d n },
        ¬(c.row < 0 ∨ GRID_SIZE ≤ c.row ∨ c.col < 0 ∨ GRID_SIZE ≤ c.col)) →
      (move s p d n).1.success = true) ∧
    ((move s p d n).1.success = false → (move s p d n).2 = s) := by
  refine ⟨?_, ?_, ?_, ?_, ?_, ?_, ?_, ?_, ?_, ?_, ?_, ?_⟩
  · intro h1
    simp [fire, h1]
  · intro h1 h2
    simp [fire, h1, h2]
  · intro h1 h2 h3
    have n1 : ¬(s.isGameOver = true) := by simp [h1]
    have n2 : ¬(s.currentTurn ≠ p) := fun hh => hh h2
    simp only [fire]
    split_ifs
    rfl
  · intro h1 h2 h3 h4
    have n1 : ¬(s.isGameOver = true) := by simp [h1]
    have n2 : ¬(s.currentTurn ≠ p) := fun hh => hh h2
    simp only [fire]
    split_ifs
    rfl
  · intro h1 h2 h3 h4
    have n1 : ¬(s.isGameOver = true) := by simp [h1]
    have n2 : ¬(s.currentTurn ≠ p) := fun hh => hh h2
    have n4 : ¬(hasShot (s.getPlayer p).shotsHistory t = true) := by simp [h4]
    simp only [fire]
    split_ifs
    cases hfi : (getBoatCells (s.getPlayer p.other).boat).findIdx? (fun c => decide (c = t)) <;>
      simp only [hfi] <;> (try split_ifs) <;> rfl
  · intro hf
    simp only [fire] at hf ⊢
    split_ifs at hf ⊢ with g1 g2 g3 g4
    · rfl
    · rfl
    · rfl
    · rfl
    · cases hfi : (getBoatCells (s.getPlayer p.other).boat).findIdx? (fun c => decide (c = t)) <;>
        simp only [hfi] at hf <;> (try split_ifs at hf) <;> simp at hf
  · intro h1
    simp [move, h1]
  · intro h1 h2
    simp [move, h1, h2]
  · intro h1 h2 h3
    have n1 : ¬(s.isGameOver = true) := by simp [h1]
    have n2 : ¬(s.currentTurn ≠ p) := fun hh => hh h2
    simp only [move]
    split_ifs
    rfl
  · intro h1 h2 h3 hex
    have n1 : ¬(s.isGameOver = true) := by simp [h1]
    have n2 : ¬(s.currentTurn ≠ p) := fun hh => hh h2
    have hb : (getBoatCells
        { (s.getPlayer p).boat with
            position := movedPosition (s.getPlayer p).boat.position d n }).any
          (fun c => decide (c.row < 0 ∨ GRID_SIZE ≤ c.row ∨ c.col < 0 ∨ GRID_SIZE ≤ c.col)) = true := by
      rw [List.any_eq_true]
      obtain ⟨c, hc1, hc2⟩ := hex
      exact ⟨c, hc1, by simpa using hc2⟩
    simp only [move]
    split_ifs
    rfl
  · intro h1 h2 h3 hall
    have n1 : ¬(s.isGameOver = true) := by simp [h1]
    have n2 : ¬(s.currentTurn ≠ p) := fun hh => hh h2
    have hb : ¬((getBoatCells
        { (s.getPlayer p).boat with
            position := movedPosition (s.getPlayer p).boat.position d n }).any
          (fun c => decide (c.row < 0 ∨ GRID_SIZE ≤ c.row ∨ c.col < 0 ∨ GRID_SIZE ≤ c.col)) = true) := by
      rw [List.any_eq_true]
      rintro ⟨c, hc1, hc2⟩
      exact hall c hc1 (by simpa using hc2)
    simp only [move]
    split_ifs <;> rfl
  · intro hf
    simp only [move] at hf ⊢
    split_ifs at hf ⊢ with g1 g2 g3 g4 g5
    all_goals first | rfl | simp at hf

/-- C5: every successful `fire` that does not sink and every successful
`move` that does not collide flips `currentTurn`, and `turnNumber` is
incremented by exactly 1 when the new `currentTurn` is `player1` and is
unchanged otherwise. -/
theorem turn_alternation (s : GameState) (p : Player) (t : Position)
    (d : Direction) (n : Int) :
    ((fire s p t).1.success = true → (fire s p t).1.sunk = false →
      (fire s p t).2.currentTurn ≠ s.currentTurn ∧
      ((fire s p t).2.currentTurn = Player.player1 →
        (fire s p t).2.turnNumber = s.turnNumber + 1) ∧
      ((fire s p t).2.currentTurn ≠ Player.player1 →
        (fire s p t).2.turnNumber = s.turnNumber)) ∧
    ((move s p d n).1.success = true → (move s p d n).1.collision = false →
      (move s p d n).2.currentTurn ≠ s.currentTurn ∧
      ((move s p d n).2.currentTurn = Player.player1 →
        (move s p d n).2.turnNumber = s.turnNumber + 1) ∧
      ((move s p d n).2.currentTurn ≠ Player.player1 →
        (move s p d n).2.turnNumber = s.turnNumber)) := by
  constructor
  · intro hs hk
    simp only [fire] at hs hk ⊢
    split_ifs at hs hk ⊢
    cases hfi : (getBoatCells (s.getPlayer p.other).boat).findIdx? (fun c => decide (c = t)) <;>
      simp only [hfi] at hk ⊢
    · cases hq : s.currentTurn <;> simp [switchTurn, Player.other, hq]
    · split_ifs at hk ⊢
      cases hq : s.currentTurn <;> simp [switchTurn, Player.other, hq]
  · intro hs hk
    simp only [move] at hs hk ⊢
    split_ifs at hs hk ⊢
    cases hq : s.currentTurn <;> simp [switchTurn, Player.other, hq]

/-- A finished game used to witness the game-over failure branch. -/
def overExample : GameState :=
  { gridSize := GRID_SIZE,
    player1 := { boat := { position := { row := 0, col := 0 }, orientation := .horizontal, hits := ∅ },
                 shotsHistory := [] },
    player2 := { boat := { position := { row := 9, col := 0 }, orientation := .horizontal, hits := {0, 1, 2} },
                 shotsHistory := [] },
    currentTurn := .player1,
    isGameOver := true,
    winner := some .player1,
    winReason := some "sunk the opposing boat",
    turnNumber := 7 }

/-- Witness for C3: on the finished game `overExample`, both `fire` and
`move` fail with the game-over message and return the state unchanged. -/
theorem failure_first_violation_and_no_mutation_witness :
    overExample.isGameOver = true ∧
    fire overExample Player.player2 (Position.mk 3 3)
      = ({ success := false, hit := false, message := "Game is already over" }, overExample) ∧
    move overExample Player.player2 Direction.left 2
      = ({ success := false, message := "Game is already over" }, overExample) :=
  ⟨rfl,
   (failure_first_violation_and_no_mutation overExample Player.player2 (Position.mk 3 3)
      Direction.left 2).1 rfl,
   (failure_first_violation_and_no_mutation overExample Player.player2 (Position.mk 3 3)
      Direction.left 2).2.2.2.2.2.2.1 rfl⟩

/-- A running game with player2 to act, used to witness turn alternation. -/
def turnExample : GameState :=
  { gridSize := GRID_SIZE,
    player1 := { boat := { position := { row := 0, col := 0 }, orientation := .horizontal, hits := ∅ },
                 shotsHistory := [] },
    player2 := { boat := { position := { row := 5, col := 5 }, orientation := .horizontal, hits := ∅ },
                 shotsHistory := [] },
    currentTurn := .player2,
    isGameOver := false,
    winner := none,
    winReason := none,
    turnNumber := 2 }

/-- Witness for C5: a missing shot and a plain move by player2 both flip the
turn back to player1 and increment `turnNumber`. -/
theorem turn_alternation_witness :
    (fire turnExample Player.player2 (Position.mk 9 9)).1.success = true ∧
    (fire turnExample Player.player2 (Position.mk 9 9)).1.sunk = false ∧
    ((fire turnExample Player.player2 (Position.mk 9 9)).2.currentTurn ≠ turnExample.currentTurn ∧
     ((fire turnExample Player.player2 (Position.mk 9 9)).2.currentTurn = Player.player1 →
       (fire turnExample Player.player2 (Position.mk 9 9)).2.turnNumber = turnExample.turnNumber + 1) ∧
     ((fire turnExample Player.player2 (Position.mk 9 9)).2.currentTurn ≠ Player.player1 →
       (fire turnExample Player.player2 (Position.mk 9 9)).2.turnNumber = turnExample.turnNumber)) ∧
    (move turnExample Player.player2 Direction.up 1).1.success = true ∧
    (move turnExample Player.player2 Direction.up 1).1.collision = false ∧
    ((move turnExample Player.player2 Direction.up 1).2.currentTurn ≠ turnExample.currentTurn ∧
     ((move turnExample Player.player2 Direction.up 1).2.currentTurn = Player.player1 →
       (move turnExample Player.player2 Direction.up 1).2.turnNumber = turnExample.turnNumber + 1) ∧
     ((move turnExample Player.player2 Direction.up 1).2.currentTurn ≠ Player.player1 →
       (move turnExample Player.player2 Direction.up 1).2.turnNumber = turnExample.turnNumber)) :=
  ⟨by decide, by decide,
   (turn_alternation turnExample Player.player2 (Position.mk 9 9) Direction.up 1).1
     (by decide) (by decide),
   by decide, by decide,
   (turn_alternation turnExample Player.player2 (Position.mk 9 9) Direction.up 1).2
     (by decide) (by decide)⟩

/-- C9: hits attach to boat-cell indices, not board positions.  If `fire`
passes its preconditions and the target is the opponent boat cell with index
`i` while `i` is already in the opponent's hit set (and the boat is not yet
sunk), the shot succeeds and reports a hit and is recorded in the firer's
history, but the opponent's hit set — and hence its size — is unchanged and
the game does not end; and `move` never changes any boat's hit set. -/
theorem fire_rehit_same_index_no_double_count (s : GameState) (p : Player)
    (t : Position) (i : Nat) (d : Direction) (n : Int) :
    (s.isGameOver = false → s.currentTurn = p →
      ¬(t.row < 0 ∨ GRID_SIZE ≤ t.row ∨ t.col < 0 ∨ GRID_SIZE ≤ t.col) →
      hasShot (s.getPlayer p).shotsHistory t = false →
      (getBoatCells (s.getPlayer p.other).boat).findIdx? (fun c => decide (c = t)) = some i →
      i ∈ (s.getPlayer p.other).boat.hits →
      (s.getPlayer p.other).boat.hits.card < BOAT_LENGTH →
      (fire s p t).1.success = true ∧
      (fire s p t).1.hit = true ∧
      (fire s p t).1.sunk = false ∧
      ((fire s p t).2.getPlayer p.other).boat.hits = (s.getPlayer p.other).boat.hits ∧
      ((fire s p t).2.getPlayer p).shotsHistory
        = (s.getPlayer p).shotsHistory ++ [(t, ShotResult.hit)] ∧
      (fire s p t).2.isGameOver = false ∧
      (fire s p t).2.currentTurn = s.currentTurn.other) ∧
    (∀ q : Player, ((move s p d n).2.getPlayer q).boat.hits = (s.getPlayer q).boat.hits) := by
  constructor
  · intro h1 h2 h3 h4 hfind hmem hcard
    have hins : insert i (s.getPlayer p.other).boat.hits = (s.getPlayer p.other).boat.hits :=
      Finset.insert_eq_self.mpr hmem
    have hnot : ¬(BOAT_LENGTH ≤ (insert i (s.getPlayer p.other).boat.hits).card) := by
      rw [hins]
      exact Nat.not_le.mpr hcard
    cases p <;>
      simp only [fire, h1, h2, h4, hfind, Player.other, GameState.getPlayer, GameState.setPlayer,
        Bool.false_eq_true, if_false, ne_eq, not_true_eq_false, if_neg h3, reduceIte] at *
    all_goals
      split <;> rename_i hc <;> simp_all [switchTurn, Player.other, hins] <;>
        exact absurd hc (Nat.not_le.mpr hcard)
  · intro q
    cases p <;> cases q <;>
      (simp only [move, GameState.getPlayer, GameState.setPlayer, Player.other]
       split_ifs <;> simp [switchTurn, GameState.getPlayer])

/-- A state where cell index 0 of player2's boat is already struck: firing at
that cell again is the re-hit scenario (arises after the struck boat moves
onto a previously unshot square). -/
def rehitExample : GameState :=
  { gridSize := GRID_SIZE,
    player1 := { boat := { position := { row := 5, col := 0 }, orientation := .horizontal, hits := ∅ },
                 shotsHistory := [] },
    player2 := { boat := { position := { row := 0, col := 0 }, orientation := .horizontal, hits := {0} },
                 shotsHistory := [] },
    currentTurn := .player1,
    isGameOver := false,
    winner := none,
    winReason := none,
    turnNumber := 5 }

/-- Witness for C9: firing at `(0,0)` hits cell index 0 of player2's boat,
which is already in its hit set; the hit set does not grow and the game goes
on; and a concrete `move` leaves hit sets alone. -/
theorem fire_rehit_same_index_no_double_count_witness :
    rehitExample.isGameOver = false ∧
    rehitExample.currentTurn = Player.player1 ∧
    ¬((Position.mk 0 0).row < 0 ∨ GRID_SIZE ≤ (Position.mk 0 0).row ∨
      (Position.mk 0 0).col < 0 ∨ GRID_SIZE ≤ (Position.mk 0 0).col) ∧
    hasShot (rehitExample.getPlayer Player.player1).shotsHistory (Position.mk 0 0) = false ∧
    (getBoatCells (rehitExample.getPlayer (Player.player1).other).boat).findIdx?
      (fun c => decide (c = Position.mk 0 0)) = some 0 ∧
    0 ∈ (rehitExample.getPlayer (Player.player1).other).boat.hits ∧
    (rehitExample.getPlayer (Player.player1).other).boat.hits.card < BOAT_LENGTH ∧
    ((fire rehitExample Player.player1 (Position.mk 0 0)).1.success = true ∧
     (fire rehitExample Player.player1 (Position.mk 0 0)).1.hit = true ∧
     (fire rehitExample Player.player1 (Position.mk 0 0)).1.sunk = false ∧
     ((fire rehitExample Player.player1 (Position.mk 0 0)).2.getPlayer (Player.player1).other).boat.hits
       = (rehitExample.getPlayer (Player.player1).other).boat.hits ∧
     ((fire rehitExample Player.player1 (Position.mk 0 0)).2.getPlayer Player.player1).shotsHistory
       = (rehitExample.getPlayer Player.player1).shotsHistory ++ [(Position.mk 0 0, ShotResult.hit)] ∧
     (fire rehitExample Player.player1 (Position.mk 0 0)).2.isGameOver = false ∧
     (fire rehitExample Player.player1 (Position.mk 0 0)).2.currentTurn
       = rehitExample.currentTurn.other) ∧
    ((move rehitExample Player.player1 Direction.up 1).2.getPlayer Player.player2).boat.hits
      = (rehitExample.getPlayer Player.player2).boat.hits :=
  ⟨rfl, rfl, by decide, rfl, by decide, by decide, by decide,
   (fire_rehit_same_index_no_double_count rehitExample Player.player1 (Position.mk 0 0) 0
      Direction.up 1).1 rfl rfl (by decide) rfl (by decide) (by decide) (by decide),
   (fire_rehit_same_index_no_double_count rehitExample Player.player1 (Position.mk 0 0) 0
      Direction.up 1).2 Player.player2⟩

/-- C10: `fire` never tests the target against the acting player's own boat.
A shot that passes the preconditions, lands on a cell of the actor's own boat
and on no cell of the opponent's boat, is a legal miss: it is recorded as a
miss in the actor's history, changes neither hit set, does not end the game,
and flips the turn. -/
theorem fire_own_boat_is_legal_miss (s : GameState) (p : Player) (t : Position)
    (h1 : s.isGameOver = false) (h2 : s.currentTurn = p)
    (h3 : ¬(t.row < 0 ∨ GRID_SIZE ≤ t.row ∨ t.col < 0 ∨ GRID_SIZE ≤ t.col))
    (h4 : hasShot (s.getPlayer p).shotsHistory t = false)
    (hown : t ∈ getBoatCells (s.getPlayer p).boat)
    (hopp : t ∉ getBoatCells (s.getPlayer p.other).boat) :
    (fire s p t).1.success = true ∧
    (fire s p t).1.hit = false ∧
    (fire s p t).1.sunk = false ∧
    ((fire s p t).2.getPlayer p).shotsHistory
      = (s.getPlayer p).shotsHistory ++ [(t, ShotResult.miss)] ∧
    (∀ q : Player, ((fire s p t).2.getPlayer q).boat.hits = (s.getPlayer q).boat.hits) ∧
    (fire s p t).2.isGameOver = false ∧
    (fire s p t).2.currentTurn = s.currentTurn.other := by
  have hfnone := findIdx?_none_of_not_mem hopp
  refine ⟨?_, ?_, ?_, ?_, ?_, ?_, ?_⟩ <;>
    (try intro q) <;>
    cases p <;>
    (try cases q) <;>
      simp only [fire, h1, h2, h4, hfnone, Player.other, GameState.getPlayer, GameState.setPlayer,
        Bool.false_eq_true, if_false, ne_eq, not_true_eq_false, if_neg h3, reduceIte] at * <;>
      simp_all [switchTurn, Player.other]

/-- A state where player1 fires at its own boat cell `(0,1)`. -/
def ownShotExample : GameState :=
  { gridSize := GRID_SIZE,
    player1 := { boat := { position := { row := 0, col := 0 }, orientation := .horizontal, hits := ∅ },
                 shotsHistory := [] },
    player2 := { boat := { position := { row := 5, col := 5 }, orientation := .vertical, hits := {1} },
                 shotsHistory := [] },
    currentTurn := .player1,
    isGameOver := false,
    winner := none,
    winReason := none,
    turnNumber := 1 }

/-- Witness for C10: player1 fires at `(0,1)`, a cell of its own boat and of
nobody else's; the shot is a recorded miss and the game continues. -/
theorem fire_own_boat_is_legal_miss_witness :
    ownShotExample.isGameOver = false ∧
    ownShotExample.currentTurn = Player.player1 ∧
    ¬((Position.mk 0 1).row < 0 ∨ GRID_SIZE ≤ (Position.mk 0 1).row ∨
      (Position.mk 0 1).col < 0 ∨ GRID_SIZE ≤ (Position.mk 0 1).col) ∧
    hasShot (ownShotExample.getPlayer Player.player1).shotsHistory (Position.mk 0 1) = false ∧
    Position.mk 0 1 ∈ getBoatCells (ownShotExample.getPlayer Player.player1).boat ∧
    Position.mk 0 1 ∉ getBoatCells (ownShotExample.getPlayer (Player.player1).other).boat ∧
    ((fire ownShotExample Player.player1 (Position.mk 0 1)).1.success = true ∧
     (fire ownShotExample Player.player1 (Position.mk 0 1)).1.hit = false ∧
     (fire ownShotExample Player.player1 (Position.mk 0 1)).1.sunk = false ∧
     ((fire ownShotExample Player.player1 (Position.mk 0 1)).2.getPlayer Player.player1).shotsHistory
       = (ownShotExample.getPlayer Player.player1).shotsHistory ++ [(Position.mk 0 1, ShotResult.miss)] ∧
     (∀ q : Player, ((fire ownShotExample Player.player1 (Position.mk 0 1)).2.getPlayer q).boat.hits
       = (ownShotExample.getPlayer q).boat.hits) ∧
     (fire ownShotExample Player.player1 (Position.mk 0 1)).2.isGameOver = false ∧
     (fire ownShotExample Player.player1 (Position.mk 0 1)).2.currentTurn
       = ownShotExample.currentTurn.other) :=
  ⟨rfl, rfl, by decide, rfl, by decide, by decide,
   fire_own_boat_is_legal_miss ownShotExample Player.player1 (Position.mk 0 1)
     rfl rfl (by decide) rfl (by decide) (by decide)⟩

/-! ## Spawn separation (C4) -/

/-- A constant stream of random draws (each draw would place a horizontal
boat anchored at `(0,0)`). -/
def constantDraw : Nat → RandDraw := fun _ => { orientCoin := true, rowDraw := 0, colDraw := 0 }

/-- If two boats are not `boatsTooClose`, their cell sets are disjoint
(`MIN_SPAWN_DISTANCE` is positive, so a shared cell would be a pair at
distance 0). -/
theorem disjoint_of_not_tooClose {b1 b2 : Boat} (h : boatsTooClose b1 b2 = false) :
    ∀ c ∈ getBoatCells b1, c ∉ getBoatCells b2 := by
  intro c hc1 hc2
  rw [boatsTooClose, List.any_eq_false] at h
  have h2 := h c hc1
  exact h2 (by rw [List.any_eq_true]; exact ⟨c, hc2, by simp [MIN_SPAWN_DISTANCE]⟩)

/-- Boat cells depend only on the anchor and the orientation. -/
theorem getBoatCells_congr {b1 b2 : Boat} (hp : b1.position = b2.position)
    (ho : b1.orientation = b2.orientation) : getBoatCells b1 = getBoatCells b2 := by
  simp [getBoatCells, hp, ho]

/-- `fire` never changes any boat's anchor or orientation. -/
theorem fire_preserves_geometry (s : GameState) (p : Player) (t : Position) (q : Player) :
    ((fire s p t).2.getPlayer q).boat.position = (s.getPlayer q).boat.position ∧
    ((fire s p t).2.getPlayer q).boat.orientation = (s.getPlayer q).boat.orientation := by
  cases p <;> cases q
  all_goals simp only [fire, GameState.getPlayer, GameState.setPlayer, Player.other]
  all_goals split_ifs
  all_goals try split
  all_goals try split_ifs
  all_goals simp [switchTurn]

/-- Counterexample to C4 as stated: if every random draw places the boat at
`(0,0)` horizontal, all 100 retries stay too close and `initializeGame`
accepts a player2 boat that fully overlaps player1's. -/
theorem initializeGame_overlap_counterexample :
    ¬ boatCellsDisjoint
        (initializeGame { orientCoin := true, rowDraw := 0, colDraw := 0 }
          { orientCoin := true, rowDraw := 0, colDraw := 0 } constantDraw) := by
  decide

/-- C4 (amended): `fire` and `move` preserve disjointness of the two boats'
cell sets from any state in which it holds, and initialization guarantees it
exactly when the bounded spawn-separation retry accepts a placement that is
not too close; a run in which all 100 regenerations stay too close may
produce overlapping boats (see the counterexample). -/
theorem boats_disjoint_preserved_and_spawn_best_effort (s : GameState) (p : Player)
    (t : Position) (d : Direction) (n : Int) (d1 d2 : RandDraw) (ds : Nat → RandDraw) :
    (boatCellsDisjoint s → boatCellsDisjoint (fire s p t).2) ∧
    (boatCellsDisjoint s → boatCellsDisjoint (move s p d n).2) ∧
    (boatsTooClose (initializeGame d1 d2 ds).player1.boat
        (initializeGame d1 d2 ds).player2.boat = false →
      boatCellsDisjoint (initializeGame d1 d2 ds)) := by
  refine ⟨?_, ?_, ?_⟩
  · intro hd
    have g1 := fire_preserves_geometry s p t Player.player1
    have g2 := fire_preserves_geometry s p t Player.player2
    unfold boatCellsDisjoint at hd ⊢
    rw [show (fire s p t).2.player1 = (fire s p t).2.getPlayer Player.player1 from rfl,
        show (fire s p t).2.player2 = (fire s p t).2.getPlayer Player.player2 from rfl,
        getBoatCells_congr g1.1 g1.2, getBoatCells_congr g2.1 g2.2]
    exact hd
  · intro hd
    cases p
    all_goals simp only [move, GameState.getPlayer, GameState.setPlayer, Player.other]
    all_goals split_ifs with g1 g2 g3 g4 g5
    all_goals try exact hd
    · intro c hc1 hc2
      exact absurd hc1 (by simp_all [boatCellsDisjoint, switchTurn])
    · intro c hc1 hc2
      exact absurd hc1 (by simp_all [boatCellsDisjoint, switchTurn])
  · intro h
    exact disjoint_of_not_tooClose h

/-- Witness for the amended C4: a concrete disjoint state stays disjoint
under a `fire` and a `move`, and a concrete initialization whose first
player2 placement is far enough away is disjoint. -/
theorem boats_disjoint_preserved_and_spawn_best_effort_witness :
    boatCellsDisjoint collisionExample ∧
    boatCellsDisjoint (fire collisionExample Player.player1 (Position.mk 9 9)).2 ∧
    boatCellsDisjoint (move collisionExample Player.player1 Direction.up 1).2 ∧
    boatsTooClose
      (initializeGame { orientCoin := true, rowDraw := 0, colDraw := 0 }
        { orientCoin := true, rowDraw := 9, colDraw := 9 } constantDraw).player1.boat
      (initializeGame { orientCoin := true, rowDraw := 0, colDraw := 0 }
        { orientCoin := true, rowDraw := 9, colDraw := 9 } constantDraw).player2.boat = false ∧
    boatCellsDisjoint
      (initializeGame { orientCoin := true, rowDraw := 0, colDraw := 0 }
        { orientCoin := true, rowDraw := 9, colDraw := 9 } constantDraw) :=
  ⟨by decide,
   (boats_disjoint_preserved_and_spawn_best_effort collisionExample Player.player1
      (Position.mk 9 9) Direction.up 1 { orientCoin := true, rowDraw := 0, colDraw := 0 }
      { orientCoin := true, rowDraw := 9, colDraw := 9 } constantDraw).1 (by decide),
   (boats_disjoint_preserved_and_spawn_best_effort collisionExample Player.player1
      (Position.mk 9 9) Direction.up 1 { orientCoin := true, rowDraw := 0, colDraw := 0 }
      { orientCoin := true, rowDraw := 9, colDraw := 9 } constantDraw).2.1 (by decide),
   by decide,
   (boats_disjoint_preserved_and_spawn_best_effort collisionExample Player.player1
      (Position.mk 9 9) Direction.up 1 { orientCoin := true, rowDraw := 0, colDraw := 0 }
      { orientCoin := true, rowDraw := 9, colDraw := 9 } constantDraw).2.2 (by decide)⟩

end Battleship